import Mathlib

/-!
Device enumeration of libicsneo: `NeoVIPLASMA` and `DeviceFinder`.

Shallow embedding of `include/icsneo/device/plasion/neoviplasma.h` (the
`NeoVIPLASMA` constructor and the static `NeoVIPLASMA::Find`) and of the
enumeration contract behind `DeviceFinder::FindAll`
(`include/icsneo/device/devicefinder.h` only declares it).

* A C++ exception is a value of `Fault`; code that may throw returns `Except Fault _`.
* `std::vector` is `List`; `push_back` appends at the end.
* `std::shared_ptr<Device>` is the `Device` value it points to.
* The FTDI platform layer is explicit state: what the bus answers, and the list of
  product ids `FTDI::FindByProduct` has been called with.
-/

namespace icsneo

/-! ## Data model -/

/-- Modelled from the spec: `icsneo/device/devicetype.h` is not among the sources. The
spec calls `DeviceType` a closed enumeration of known models and names these four. -/
inductive DeviceType where
  | PLASMA
  | FIRE
  | RED
  | VCAN
  deriving DecidableEq, Repr

/-- Modelled from the spec: the declaration of `neodevice_t` is not among the sources.
The constructor under study writes its field `type`; the other fields are the ones the
spec lists for an FTDI endpoint descriptor (transport tag, serial string, description
string, backend-native location id). -/
structure neodevice_t where
  type : DeviceType
  transport : String
  serial : String
  description : String
  locationId : Nat
  deriving DecidableEq, Repr

/-- Modelled from the spec: the class `Device` (base of `Plasion`) is not among the
sources. A device handle carries the embedded descriptor (`getWritableNeoDevice()` is
the mutable view of `data`), the product id, and the model-specific state, which the
spec gives as initially unopened. The device-type tag of a handle is `data.type`. -/
structure Device where
  data : neodevice_t
  productId : Nat
  isOpen : Bool
  deriving DecidableEq, Repr

/-- A fault raised by a transport backend (a C++ exception), with its diagnostic. -/
structure Fault where
  what : String
  deriving DecidableEq, Repr

/-- Modelled from the spec: the base-class constructor `Plasion(neodevice)` is not among
the sources. It only wraps the descriptor: the handle embeds it as given and starts
unopened; `productId` is not yet stamped (0). -/
def Plasion (neodevice : neodevice_t) : Device :=
  { data := neodevice, productId := 0, isOpen := false }

/-! ## `neoviplasma.h` -/

namespace NeoVIPLASMA

/-- Source: `static constexpr DeviceType::Enum DEVICE_TYPE = DeviceType::PLASMA;` -/
def DEVICE_TYPE : DeviceType := DeviceType.PLASMA

/-- Source: `static constexpr const uint16_t PRODUCT_ID = 0x0801;` -/
def PRODUCT_ID : Nat := 0x0801

end NeoVIPLASMA

/-- The constructor
`NeoVIPLASMA(neodevice_t neodevice) : Plasion(neodevice) { getWritableNeoDevice().type = DEVICE_TYPE; productId = PRODUCT_ID; }`. -/
def NeoVIPLASMA (neodevice : neodevice_t) : Device :=
  let self := Plasion neodevice
  let self := { self with data := { self.data with type := NeoVIPLASMA.DEVICE_TYPE } }
  { self with productId := NeoVIPLASMA.PRODUCT_ID }

/-- The FTDI platform layer as the finder sees it. `bus` is what `FTDI::FindByProduct`
yields for each product id (a sequence of descriptors, or a fault); `queries` are the
product ids it has been called with so far, oldest first. -/
structure FTDI where
  bus : Nat → Except Fault (List neodevice_t)
  queries : List Nat

/-- The call `FTDI::FindByProduct(productId)`: the backend's answer for that product id,
and the platform state with the call recorded. The backend is stateless with respect to
the call, so `bus` is unchanged. -/
def FTDI.FindByProduct (productId : Nat) (ftdi : FTDI) :
    Except Fault (List neodevice_t) × FTDI :=
  (ftdi.bus productId, { ftdi with queries := ftdi.queries ++ [productId] })

namespace NeoVIPLASMA

/-- The loop
`for(auto neodevice : ...) found.push_back(std::make_shared<NeoVIPLASMA>(neodevice));`
of `Find`, run over the remaining descriptors from the current `found`. -/
def Find.loop : List neodevice_t → List Device → List Device
  | [], found => found
  | neodevice :: rest, found => Find.loop rest (found ++ [NeoVIPLASMA neodevice])

/-- The static member `NeoVIPLASMA::Find()`. There is no `try` block in it: a fault raised by
`FTDI::FindByProduct(PRODUCT_ID)` leaves `Find` as it is. -/
def Find (ftdi : FTDI) : Except Fault (List Device) × FTDI :=
  match FTDI.FindByProduct PRODUCT_ID ftdi with
  | (Except.error fault, ftdi1) => (Except.error fault, ftdi1)
  | (Except.ok neodevices, ftdi1) => (Except.ok (Find.loop neodevices []), ftdi1)

end NeoVIPLASMA

/-! ## `devicefinder.h`

The header only declares `DeviceFinder::FindAll`; its body is not among the sources.
What follows is the enumeration contract of the spec (registry of model descriptors,
iterated in registration order). -/

namespace NeoVIFIRE

/-- Modelled from the spec: the device-type tag of the FIRE model. -/
def DEVICE_TYPE : DeviceType := DeviceType.FIRE

/-- Modelled from the spec: the FIRE model answers to product id 0x0701 on the FTDI
backend (scenario 3 of the spec). -/
def PRODUCT_ID : Nat := 0x0701

end NeoVIFIRE

/-- Modelled from the spec: the FIRE model is not among the sources; the spec says any
further concrete model follows the shape of PLASMA with different constants. -/
def NeoVIFIRE (neodevice : neodevice_t) : Device :=
  let self := Plasion neodevice
  let self := { self with data := { self.data with type := NeoVIFIRE.DEVICE_TYPE } }
  { self with productId := NeoVIFIRE.PRODUCT_ID }

/-- Modelled from the spec: one row of the registry, with its device-type tag, the
transport signature it answers to (backend id and product id) and its factory. -/
structure ModelDescriptor where
  deviceType : DeviceType
  backend : String
  productId : Nat
  factory : neodevice_t → Device

/-- Modelled from the spec: the transport backends, by backend id; each answers
`FindByProduct(product_id)` with a sequence of endpoint descriptors or raises a fault. -/
abbrev Backends := String → Nat → Except Fault (List neodevice_t)

namespace DeviceFinder

/-- Modelled from the spec: the registry row of the PLASMA model (section 4.4). -/
def PLASMA : ModelDescriptor :=
  { deviceType := NeoVIPLASMA.DEVICE_TYPE, backend := "ftdi",
    productId := NeoVIPLASMA.PRODUCT_ID, factory := NeoVIPLASMA }

/-- Modelled from the spec: the registry row of the FIRE model (scenario 3). -/
def FIRE : ModelDescriptor :=
  { deviceType := NeoVIFIRE.DEVICE_TYPE, backend := "ftdi",
    productId := NeoVIFIRE.PRODUCT_ID, factory := NeoVIFIRE }

/-- Modelled from the spec: steps 2 and 3 of `FindAll` for one descriptor `D`: each
endpoint returned is wrapped by the factory of `D` and the handle is appended to the
result sequence. -/
def FindAll.wrap (D : ModelDescriptor) : List neodevice_t → List Device → List Device
  | [], result => result
  | E :: rest, result => FindAll.wrap D rest (result ++ [D.factory E])

/-- Modelled from the spec: step 1 of `FindAll` over the rest of the registry, carrying
the result sequence and the diagnostics recorded so far. A fault of a backend query is
caught at the per-model boundary: a diagnostic is recorded and the next model is
processed. -/
def FindAll.run (backends : Backends) :
    List ModelDescriptor → List Device × List Fault → List Device × List Fault
  | [], acc => acc
  | D :: rest, (result, diagnostics) =>
    match backends D.backend D.productId with
    | Except.error fault => FindAll.run backends rest (result, diagnostics ++ [fault])
    | Except.ok endpoints =>
      FindAll.run backends rest (FindAll.wrap D endpoints result, diagnostics)

/-- Modelled from the spec: `DeviceFinder::FindAll()`, whose body is not among the sources
(section 4.3 of the spec). The registry and the backends, process-wide in the program,
are arguments; the value is the result sequence and the diagnostics of the side
channel. -/
def FindAll (registry : List ModelDescriptor) (backends : Backends) :
    List Device × List Fault :=
  FindAll.run backends registry ([], [])

/-- Modelled from the spec: the handles of one registered model, that is, the endpoints
its backend returns for its product id, each wrapped by its factory, in the backend's
order; none when the query faults. -/
def handlesOf (backends : Backends) (D : ModelDescriptor) : List Device :=
  match backends D.backend D.productId with
  | Except.error _ => []
  | Except.ok endpoints => endpoints.map D.factory

end DeviceFinder

/-! ## Concrete platform states used to exercise the definitions -/

/-- An endpoint with serial "A" (its type tag on entry is not PLASMA). -/
def endpointA : neodevice_t :=
  { type := DeviceType.FIRE, transport := "ftdi", serial := "A",
    description := "neoVI PLASMA", locationId := 1 }

/-- An endpoint with serial "B". -/
def endpointB : neodevice_t :=
  { type := DeviceType.VCAN, transport := "ftdi", serial := "B",
    description := "neoVI PLASMA", locationId := 2 }

/-- A platform whose backend answers `[endpointA, endpointB]` for 0x0801 and nothing for
any other product id; no call made yet. -/
def ftdiAB : FTDI :=
  { bus := fun productId =>
      if productId = 0x0801 then Except.ok [endpointA, endpointB] else Except.ok [],
    queries := [] }

/-- A platform with no endpoint at all. -/
def ftdiEmpty : FTDI :=
  { bus := fun _ => Except.ok [], queries := [] }

/-- A platform whose backend faults on the query for 0x0801. -/
def ftdiFaulty : FTDI :=
  { bus := fun productId =>
      if productId = 0x0801 then Except.error { what := "permission denied" }
      else Except.ok [],
    queries := [] }

/-- A platform that agrees with `ftdiAB` on 0x0801 only: it answers `[endpointB]` for
0x0701 and faults on every other product id; it has been queried before. -/
def ftdiABElsewhereDifferent : FTDI :=
  { bus := fun productId =>
      if productId = 0x0801 then Except.ok [endpointA, endpointB]
      else if productId = 0x0701 then Except.ok [endpointB]
      else Except.error { what := "driver unavailable" },
    queries := [0x0701] }

/-- A platform whose backend reports `endpointA` three times, around one `endpointB`. -/
def ftdiRepeated : FTDI :=
  { bus := fun productId =>
      if productId = 0x0801 then Except.ok [endpointA, endpointB, endpointA, endpointA]
      else Except.ok [],
    queries := [] }

/-- Backends of scenario 3: the FTDI backend returns `[endpointA]` for 0x0801 and
`[endpointB, endpointA]` for 0x0701. -/
def backendsScenario3 : Backends := fun backend productId =>
  if backend = "ftdi" ∧ productId = 0x0801 then Except.ok [endpointA]
  else if backend = "ftdi" ∧ productId = 0x0701 then Except.ok [endpointB, endpointA]
  else Except.ok []

/-! ## Shared lemmas -/

theorem Find_loop_eq (neodevices : List neodevice_t) (found : List Device) :
    NeoVIPLASMA.Find.loop neodevices found = found ++ neodevices.map NeoVIPLASMA := by
  induction neodevices generalizing found with
  | nil => simp [NeoVIPLASMA.Find.loop]
  | cons e rest ih => simp [NeoVIPLASMA.Find.loop, ih]

theorem Find_ok (ftdi : FTDI) (es : List neodevice_t)
    (h : ftdi.bus NeoVIPLASMA.PRODUCT_ID = Except.ok es) :
    (NeoVIPLASMA.Find ftdi).1 = Except.ok (es.map NeoVIPLASMA) := by
  simp [NeoVIPLASMA.Find, FTDI.FindByProduct, h, Find_loop_eq]

theorem Find_error (ftdi : FTDI) (fault : Fault)
    (h : ftdi.bus NeoVIPLASMA.PRODUCT_ID = Except.error fault) :
    (NeoVIPLASMA.Find ftdi).1 = Except.error fault := by
  simp [NeoVIPLASMA.Find, FTDI.FindByProduct, h]

theorem Find_queries (ftdi : FTDI) :
    (NeoVIPLASMA.Find ftdi).2.queries = ftdi.queries ++ [NeoVIPLASMA.PRODUCT_ID] := by
  unfold NeoVIPLASMA.Find FTDI.FindByProduct
  cases ftdi.bus NeoVIPLASMA.PRODUCT_ID <;> rfl

theorem Find_ok_of_FindByProduct (ftdi : FTDI) (es : List neodevice_t)
    (h : (FTDI.FindByProduct NeoVIPLASMA.PRODUCT_ID ftdi).1 = Except.ok es) :
    (NeoVIPLASMA.Find ftdi).1 = Except.ok (es.map NeoVIPLASMA) :=
  Find_ok ftdi es h

theorem FindAll_wrap_eq (D : ModelDescriptor) (endpoints : List neodevice_t)
    (result : List Device) :
    DeviceFinder.FindAll.wrap D endpoints result = result ++ endpoints.map D.factory := by
  induction endpoints generalizing result with
  | nil => simp [DeviceFinder.FindAll.wrap]
  | cons e rest ih => simp [DeviceFinder.FindAll.wrap, ih]

theorem FindAll_run_fst (backends : Backends) (registry : List ModelDescriptor)
    (result : List Device) (diagnostics : List Fault) :
    (DeviceFinder.FindAll.run backends registry (result, diagnostics)).1 =
      result ++ (registry.map (DeviceFinder.handlesOf backends)).flatten := by
  induction registry generalizing result diagnostics with
  | nil => simp [DeviceFinder.FindAll.run]
  | cons D rest ih =>
    unfold DeviceFinder.FindAll.run
    cases hq : backends D.backend D.productId with
    | error fault => simp [ih, DeviceFinder.handlesOf, hq]
    | ok endpoints => simp [ih, DeviceFinder.handlesOf, hq, FindAll_wrap_eq]

theorem FindAll_fst (backends : Backends) (registry : List ModelDescriptor) :
    (DeviceFinder.FindAll registry backends).1 =
      (registry.map (DeviceFinder.handlesOf backends)).flatten := by
  simp [DeviceFinder.FindAll, FindAll_run_fst]

theorem Find_zip_countP (es : List neodevice_t) (E : neodevice_t) :
    ((es.map NeoVIPLASMA).zip es).countP
        (fun p => decide (p.1 = NeoVIPLASMA E ∧ p.2 = E)) = es.count E := by
  induction es with
  | nil => rfl
  | cons e rest ih =>
    simp only [List.map_cons, List.zip_cons_cons, List.countP_cons, List.count_cons, ih]
    by_cases he : e = E
    · subst he
      simp
    · simp [he]

/-! ## The claims -/

/-- C1: for every sequence `es` that `FTDI::FindByProduct` returns for product id 0x0801,
`NeoVIPLASMA::Find` returns a sequence of exactly `es.length` handles whose `i`-th handle
is the `NeoVIPLASMA` built from `es[i]`; that is, the result is `es` mapped through the
constructor, with nothing dropped, added or reordered. -/
theorem C1_Find_is_backend_sequence_wrapped (ftdi : FTDI) (es : List neodevice_t)
    (h : (FTDI.FindByProduct 0x0801 ftdi).1 = Except.ok es) :
    ∃ found : List Device,
      (NeoVIPLASMA.Find ftdi).1 = Except.ok found ∧
      found = es.map NeoVIPLASMA ∧
      found.length = es.length ∧
      ∀ (i : Nat) (hi : i < es.length) (hf : i < found.length),
        found[i] = NeoVIPLASMA es[i] := by
  refine ⟨es.map NeoVIPLASMA, Find_ok_of_FindByProduct ftdi es h, rfl, by simp, ?_⟩
  intro i hi hf
  simp

/-- C1 witness: the backend answers `[endpointA, endpointB]`. -/
theorem C1_Find_is_backend_sequence_wrapped_witness :
    ∃ found : List Device,
      (NeoVIPLASMA.Find ftdiAB).1 = Except.ok found ∧
      found = [endpointA, endpointB].map NeoVIPLASMA ∧
      found.length = [endpointA, endpointB].length ∧
      ∀ (i : Nat) (hi : i < [endpointA, endpointB].length) (hf : i < found.length),
        found[i] = NeoVIPLASMA ([endpointA, endpointB][i]) :=
  C1_Find_is_backend_sequence_wrapped ftdiAB [endpointA, endpointB] rfl

/-- C2: whatever type value the endpoint descriptor carried on entry, the handle the
`NeoVIPLASMA` constructor builds has device type PLASMA and product id 0x0801; hence,
whenever `FTDI::FindByProduct(0x0801)` returns, `NeoVIPLASMA::Find` returns a sequence
every handle of which has device type PLASMA and product id 0x0801. -/
theorem C2_handles_are_stamped_PLASMA_0x0801 :
    (∀ neodevice : neodevice_t,
        (NeoVIPLASMA neodevice).data.type = DeviceType.PLASMA ∧
        (NeoVIPLASMA neodevice).productId = 0x0801) ∧
    (∀ (ftdi : FTDI) (es : List neodevice_t),
        (FTDI.FindByProduct 0x0801 ftdi).1 = Except.ok es →
        ∃ found : List Device,
          (NeoVIPLASMA.Find ftdi).1 = Except.ok found ∧
          ∀ H ∈ found, H.data.type = DeviceType.PLASMA ∧ H.productId = 0x0801) := by
  refine ⟨fun _ => ⟨rfl, rfl⟩, ?_⟩
  intro ftdi es h
  refine ⟨es.map NeoVIPLASMA, Find_ok_of_FindByProduct ftdi es h, ?_⟩
  intro H hH
  obtain ⟨e, _, rfl⟩ := List.mem_map.mp hH
  exact ⟨rfl, rfl⟩

/-- C2 witness: an endpoint that entered tagged FIRE leaves the constructor tagged PLASMA
with product id 0x0801, and so does every handle found on `ftdiAB`. -/
theorem C2_handles_are_stamped_PLASMA_0x0801_witness :
    endpointA.type = DeviceType.FIRE ∧
    ((NeoVIPLASMA endpointA).data.type = DeviceType.PLASMA ∧
      (NeoVIPLASMA endpointA).productId = 0x0801) ∧
    ∃ found : List Device,
      (NeoVIPLASMA.Find ftdiAB).1 = Except.ok found ∧
      ∀ H ∈ found, H.data.type = DeviceType.PLASMA ∧ H.productId = 0x0801 :=
  ⟨rfl, C2_handles_are_stamped_PLASMA_0x0801.1 endpointA,
    C2_handles_are_stamped_PLASMA_0x0801.2 ftdiAB [endpointA, endpointB] rfl⟩

/-- C4 as stated fails: on a platform whose `FTDI::FindByProduct(0x0801)` raises a fault,
`NeoVIPLASMA::Find` does not yield the empty sequence; the fault leaves `Find`. -/
theorem C4_fault_reaches_caller_of_Find :
    (FTDI.FindByProduct 0x0801 ftdiFaulty).1 = Except.error { what := "permission denied" } ∧
    (NeoVIPLASMA.Find ftdiFaulty).1 = Except.error { what := "permission denied" } ∧
    (NeoVIPLASMA.Find ftdiFaulty).1 ≠ Except.ok [] :=
  ⟨rfl, rfl, fun h => by cases h⟩

/-- C4 amended: if `FTDI::FindByProduct(0x0801)` raises a fault, `NeoVIPLASMA::Find` has no
handler for it: the same fault leaves `Find` towards its caller, and `Find` returns no
sequence of handles (neither an empty one nor any other). -/
theorem C4_Find_propagates_backend_fault (ftdi : FTDI) (fault : Fault)
    (h : (FTDI.FindByProduct 0x0801 ftdi).1 = Except.error fault) :
    (NeoVIPLASMA.Find ftdi).1 = Except.error fault ∧
    ∀ found : List Device, (NeoVIPLASMA.Find ftdi).1 ≠ Except.ok found := by
  have hF : (NeoVIPLASMA.Find ftdi).1 = Except.error fault := Find_error ftdi fault h
  refine ⟨hF, ?_⟩
  intro found hf
  rw [hF] at hf
  cases hf

/-- C4 amended, witness: the platform `ftdiFaulty`. -/
theorem C4_Find_propagates_backend_fault_witness :
    (NeoVIPLASMA.Find ftdiFaulty).1 = Except.error { what := "permission denied" } ∧
    ∀ found : List Device, (NeoVIPLASMA.Find ftdiFaulty).1 ≠ Except.ok found :=
  C4_Find_propagates_backend_fault ftdiFaulty { what := "permission denied" } rfl

/-- C5: for every endpoint descriptor, the handle the `NeoVIPLASMA` constructor builds
embeds that descriptor with only the type tag rewritten (transport tag, serial string,
description and location id are the ones given), and the constructor writes nothing but
the type field of the embedded descriptor and the product id: every other part of the
handle is as the base-class constructor left it. -/
theorem C5_constructor_writes_only_type_and_productId (neodevice : neodevice_t) :
    (NeoVIPLASMA neodevice).data = { neodevice with type := DeviceType.PLASMA } ∧
    (NeoVIPLASMA neodevice).data.serial = neodevice.serial ∧
    (NeoVIPLASMA neodevice).data.transport = neodevice.transport ∧
    (NeoVIPLASMA neodevice).data.description = neodevice.description ∧
    (NeoVIPLASMA neodevice).data.locationId = neodevice.locationId ∧
    (NeoVIPLASMA neodevice).isOpen = (Plasion neodevice).isOpen ∧
    NeoVIPLASMA neodevice =
      { Plasion neodevice with
        data := { (Plasion neodevice).data with type := DeviceType.PLASMA },
        productId := 0x0801 } :=
  ⟨rfl, rfl, rfl, rfl, rfl, rfl, rfl⟩

/-- C6: when `FTDI::FindByProduct(0x0801)` returns the empty sequence, `NeoVIPLASMA::Find`
returns the empty sequence; it does not fail. -/
theorem C6_Find_empty_backend_gives_empty (ftdi : FTDI)
    (h : (FTDI.FindByProduct 0x0801 ftdi).1 = Except.ok []) :
    (NeoVIPLASMA.Find ftdi).1 = Except.ok [] :=
  Find_ok_of_FindByProduct ftdi [] h

/-- C6 witness: the platform with no endpoint. -/
theorem C6_Find_empty_backend_gives_empty_witness :
    (FTDI.FindByProduct 0x0801 ftdiEmpty).1 = Except.ok [] ∧
    (NeoVIPLASMA.Find ftdiEmpty).1 = Except.ok [] :=
  ⟨rfl, C6_Find_empty_backend_gives_empty ftdiEmpty rfl⟩

/-- C3: `DeviceFinder::FindAll` returns the concatenation, in registration order, of the
handles of each registered model. For a model `M1` registered before a model `M2`, the
handles of `M1` occupy a block of positions in the result that ends before the block of
the handles of `M2` begins, so every handle from `M1` precedes every handle from `M2`.
With registry [PLASMA, FIRE] and backend answers `[Ep]` for 0x0801 and `[Ef1, Ef2]` for
0x0701, the result is `[PLASMA(Ep), FIRE(Ef1), FIRE(Ef2)]`. -/
theorem C3_FindAll_concatenates_in_registration_order :
    (∀ (registry : List ModelDescriptor) (backends : Backends),
        (DeviceFinder.FindAll registry backends).1 =
          (registry.map (DeviceFinder.handlesOf backends)).flatten) ∧
    (∀ (backends : Backends) (before : List ModelDescriptor) (M1 : ModelDescriptor)
        (between : List ModelDescriptor) (M2 : ModelDescriptor)
        (after : List ModelDescriptor),
        ∃ start1 start2 : Nat,
          start1 + (DeviceFinder.handlesOf backends M1).length ≤ start2 ∧
          (∀ i : Nat, i < (DeviceFinder.handlesOf backends M1).length →
            (DeviceFinder.FindAll (before ++ M1 :: between ++ M2 :: after) backends).1[start1 + i]? =
              (DeviceFinder.handlesOf backends M1)[i]?) ∧
          (∀ j : Nat, j < (DeviceFinder.handlesOf backends M2).length →
            (DeviceFinder.FindAll (before ++ M1 :: between ++ M2 :: after) backends).1[start2 + j]? =
              (DeviceFinder.handlesOf backends M2)[j]?)) ∧
    (∀ (backends : Backends) (Ep Ef1 Ef2 : neodevice_t),
        backends "ftdi" 0x0801 = Except.ok [Ep] →
        backends "ftdi" 0x0701 = Except.ok [Ef1, Ef2] →
        (DeviceFinder.FindAll [DeviceFinder.PLASMA, DeviceFinder.FIRE] backends).1 =
          [NeoVIPLASMA Ep, NeoVIFIRE Ef1, NeoVIFIRE Ef2]) := by
  refine ⟨fun registry backends => FindAll_fst backends registry, ?_, ?_⟩
  · intro backends before M1 between M2 after
    have hsplit :
        (DeviceFinder.FindAll (before ++ M1 :: between ++ M2 :: after) backends).1 =
          (DeviceFinder.FindAll before backends).1 ++
            (DeviceFinder.handlesOf backends M1 ++
              ((DeviceFinder.FindAll between backends).1 ++
                (DeviceFinder.handlesOf backends M2 ++
                  (DeviceFinder.FindAll after backends).1))) := by
      simp [FindAll_fst]
    refine ⟨(DeviceFinder.FindAll before backends).1.length,
      (DeviceFinder.FindAll before backends).1.length +
        (DeviceFinder.handlesOf backends M1).length +
        (DeviceFinder.FindAll between backends).1.length, by omega, ?_, ?_⟩
    · intro i hi
      rw [hsplit, List.getElem?_append_right (by omega)]
      rw [List.getElem?_append_left (by omega)]
      congr 1
      omega
    · intro j hj
      rw [hsplit, List.getElem?_append_right (by omega)]
      rw [List.getElem?_append_right (by omega)]
      rw [List.getElem?_append_right (by omega)]
      rw [List.getElem?_append_left (by omega)]
      congr 1
      omega
  · intro backends Ep Ef1 Ef2 hp hf
    have hp1 : DeviceFinder.handlesOf backends DeviceFinder.PLASMA = [NeoVIPLASMA Ep] := by
      have hq : backends DeviceFinder.PLASMA.backend DeviceFinder.PLASMA.productId =
          Except.ok [Ep] := hp
      unfold DeviceFinder.handlesOf
      rw [hq]
      rfl
    have hf1 : DeviceFinder.handlesOf backends DeviceFinder.FIRE =
        [NeoVIFIRE Ef1, NeoVIFIRE Ef2] := by
      have hq : backends DeviceFinder.FIRE.backend DeviceFinder.FIRE.productId =
          Except.ok [Ef1, Ef2] := hf
      unfold DeviceFinder.handlesOf
      rw [hq]
      rfl
    simp [FindAll_fst, hp1, hf1]

/-- C3 witness: scenario 3 on concrete backends, with the block positions of the two
models in the result. -/
theorem C3_FindAll_concatenates_in_registration_order_witness :
    (DeviceFinder.FindAll [DeviceFinder.PLASMA, DeviceFinder.FIRE] backendsScenario3).1 =
      [NeoVIPLASMA endpointA, NeoVIFIRE endpointB, NeoVIFIRE endpointA] ∧
    ∃ start1 start2 : Nat,
      start1 + (DeviceFinder.handlesOf backendsScenario3 DeviceFinder.PLASMA).length ≤ start2 ∧
      (∀ i : Nat, i < (DeviceFinder.handlesOf backendsScenario3 DeviceFinder.PLASMA).length →
        (DeviceFinder.FindAll ([] ++ DeviceFinder.PLASMA :: [] ++ DeviceFinder.FIRE :: [])
            backendsScenario3).1[start1 + i]? =
          (DeviceFinder.handlesOf backendsScenario3 DeviceFinder.PLASMA)[i]?) ∧
      (∀ j : Nat, j < (DeviceFinder.handlesOf backendsScenario3 DeviceFinder.FIRE).length →
        (DeviceFinder.FindAll ([] ++ DeviceFinder.PLASMA :: [] ++ DeviceFinder.FIRE :: [])
            backendsScenario3).1[start2 + j]? =
          (DeviceFinder.handlesOf backendsScenario3 DeviceFinder.FIRE)[j]?) :=
  ⟨C3_FindAll_concatenates_in_registration_order.2.2 backendsScenario3
      endpointA endpointB endpointA rfl rfl,
    C3_FindAll_concatenates_in_registration_order.2.1 backendsScenario3
      [] DeviceFinder.PLASMA [] DeviceFinder.FIRE []⟩

/-- C7: two `NeoVIPLASMA::Find` calls for which `FTDI::FindByProduct(0x0801)` returns the
same sequence both return, with results of equal length whose corresponding handles
carry equal device-type tags, equal product ids and equal endpoint serials. -/
theorem C7_Find_same_answer_same_handles (ftdi1 ftdi2 : FTDI) (es : List neodevice_t)
    (h1 : (FTDI.FindByProduct 0x0801 ftdi1).1 = Except.ok es)
    (h2 : (FTDI.FindByProduct 0x0801 ftdi2).1 = Except.ok es) :
    ∃ found1 found2 : List Device,
      (NeoVIPLASMA.Find ftdi1).1 = Except.ok found1 ∧
      (NeoVIPLASMA.Find ftdi2).1 = Except.ok found2 ∧
      found1.length = found2.length ∧
      ∀ (i : Nat) (hi1 : i < found1.length) (hi2 : i < found2.length),
        found1[i].data.type = found2[i].data.type ∧
        found1[i].productId = found2[i].productId ∧
        found1[i].data.serial = found2[i].data.serial := by
  refine ⟨es.map NeoVIPLASMA, es.map NeoVIPLASMA, Find_ok_of_FindByProduct ftdi1 es h1,
    Find_ok_of_FindByProduct ftdi2 es h2, rfl, ?_⟩
  intro i _ _
  exact ⟨rfl, rfl, rfl⟩

/-- C7 witness: a first call on `ftdiAB`, then a second call on the platform state the
first call left behind. -/
theorem C7_Find_same_answer_same_handles_witness :
    ∃ found1 found2 : List Device,
      (NeoVIPLASMA.Find ftdiAB).1 = Except.ok found1 ∧
      (NeoVIPLASMA.Find (NeoVIPLASMA.Find ftdiAB).2).1 = Except.ok found2 ∧
      found1.length = found2.length ∧
      ∀ (i : Nat) (hi1 : i < found1.length) (hi2 : i < found2.length),
        found1[i].data.type = found2[i].data.type ∧
        found1[i].productId = found2[i].productId ∧
        found1[i].data.serial = found2[i].data.serial :=
  C7_Find_same_answer_same_handles ftdiAB (NeoVIPLASMA.Find ftdiAB).2
    [endpointA, endpointB] rfl rfl

/-- C8: `NeoVIPLASMA::Find` performs no deduplication. If the sequence returned by
`FTDI::FindByProduct(0x0801)` contains the endpoint descriptor `E` exactly `k` times, the
result has the length of that sequence, holds the handle built from `E` at every
position where the sequence holds `E`, and the positions where a handle built from `E`
stands over `E` are exactly `k`. -/
theorem C8_Find_keeps_repeated_endpoints (ftdi : FTDI) (es : List neodevice_t)
    (E : neodevice_t) (k : Nat)
    (h : (FTDI.FindByProduct 0x0801 ftdi).1 = Except.ok es)
    (hk : es.count E = k) :
    ∃ found : List Device,
      (NeoVIPLASMA.Find ftdi).1 = Except.ok found ∧
      found.length = es.length ∧
      (∀ i : Nat, es[i]? = some E → found[i]? = some (NeoVIPLASMA E)) ∧
      (found.zip es).countP (fun p => decide (p.1 = NeoVIPLASMA E ∧ p.2 = E)) = k ∧
      k ≤ found.count (NeoVIPLASMA E) := by
  refine ⟨es.map NeoVIPLASMA, Find_ok_of_FindByProduct ftdi es h, by simp, ?_, ?_, ?_⟩
  · intro i hi
    simp [List.getElem?_map, hi]
  · rw [← hk]
    exact Find_zip_countP es E
  · rw [← hk]
    exact List.count_le_count_map es NeoVIPLASMA E

/-- C8 witness: the backend reports `endpointA` three times (positions 0, 2 and 3). -/
theorem C8_Find_keeps_repeated_endpoints_witness :
    ∃ found : List Device,
      (NeoVIPLASMA.Find ftdiRepeated).1 = Except.ok found ∧
      found.length = [endpointA, endpointB, endpointA, endpointA].length ∧
      (∀ i : Nat, [endpointA, endpointB, endpointA, endpointA][i]? = some endpointA →
        found[i]? = some (NeoVIPLASMA endpointA)) ∧
      (found.zip [endpointA, endpointB, endpointA, endpointA]).countP
        (fun p => decide (p.1 = NeoVIPLASMA endpointA ∧ p.2 = endpointA)) = 3 ∧
      3 ≤ found.count (NeoVIPLASMA endpointA) :=
  C8_Find_keeps_repeated_endpoints ftdiRepeated
    [endpointA, endpointB, endpointA, endpointA] endpointA 3 rfl (by decide)

/-- C9: the result of `NeoVIPLASMA::Find` depends only on what the backend answers for
product id 0x0801: on two platforms whose `FTDI::FindByProduct` agree on 0x0801, however
they differ elsewhere, `Find` gives equal results; and `Find` calls
`FTDI::FindByProduct` exactly once, with product id 0x0801, so it queries the backend
with no other product id. -/
theorem C9_Find_reads_only_product_0x0801 :
    (∀ ftdi1 ftdi2 : FTDI,
        (FTDI.FindByProduct 0x0801 ftdi1).1 = (FTDI.FindByProduct 0x0801 ftdi2).1 →
        (NeoVIPLASMA.Find ftdi1).1 = (NeoVIPLASMA.Find ftdi2).1) ∧
    (∀ ftdi : FTDI, (NeoVIPLASMA.Find ftdi).2.queries = ftdi.queries ++ [0x0801]) ∧
    (∀ (ftdi : FTDI) (productId : Nat),
        productId ∈ (NeoVIPLASMA.Find ftdi).2.queries →
        productId ∈ ftdi.queries ∨ productId = 0x0801) := by
  refine ⟨?_, Find_queries, ?_⟩
  · intro ftdi1 ftdi2 h
    have hb : ftdi1.bus NeoVIPLASMA.PRODUCT_ID = ftdi2.bus NeoVIPLASMA.PRODUCT_ID := h
    cases h2 : ftdi2.bus NeoVIPLASMA.PRODUCT_ID with
    | error fault =>
      rw [Find_error ftdi1 fault (hb.trans h2), Find_error ftdi2 fault h2]
    | ok es =>
      rw [Find_ok ftdi1 es (hb.trans h2), Find_ok ftdi2 es h2]
  · intro ftdi productId hmem
    rw [Find_queries] at hmem
    rcases List.mem_append.mp hmem with hold | hnew
    · exact Or.inl hold
    · exact Or.inr (List.mem_singleton.mp hnew)

/-- C9 witness: `ftdiAB` and a platform that answers differently for every product id
other than 0x0801 give the same result, and a call from an empty call record leaves the
record `[0x0801]`. -/
theorem C9_Find_reads_only_product_0x0801_witness :
    ftdiAB.bus 0x0701 ≠ ftdiABElsewhereDifferent.bus 0x0701 ∧
    (NeoVIPLASMA.Find ftdiAB).1 = (NeoVIPLASMA.Find ftdiABElsewhereDifferent).1 ∧
    (NeoVIPLASMA.Find ftdiAB).2.queries = [0x0801] ∧
    (2049 ∈ ftdiAB.queries ∨ 2049 = 0x0801) :=
  ⟨(fun hne => by cases hne), C9_Find_reads_only_product_0x0801.1 ftdiAB ftdiABElsewhereDifferent rfl,
    C9_Find_reads_only_product_0x0801.2.1 ftdiAB,
    C9_Find_reads_only_product_0x0801.2.2 ftdiAB 2049 (by decide)⟩

end icsneo
